import Mathlib

/-!
Shallow embedding of the `amqphelper` Go package (two source variants:
`amqp.go` and a second file of unknown name), a thin facade over an
external AMQP client library.  The external library is modelled as an
explicit environment of type `Broker` (a fake broker double): every call
the facade makes into the library is recorded as an `Event`, so that
"performs a re-dial attempt", "without invoking any library call" and
"Done only inside Recover" become statements about event traces.
Go nil-pointer dereference panics are modelled by the `GoResult.nilDeref`
outcome.
-/

/-- Errors of the underlying AMQP client library and of the facade:
Go `error` values, identified by their message string. -/
abbrev Err := String

/-- Go `[]byte`. -/
abbrev Bytes := List Nat

/-- `amqp.Table`, the extra-arguments table passed through unchanged. -/
abbrev Table := List (String × String)

/-- A live `amqp.Connection` handle; `closed` is what `IsClosed()` reports. -/
structure Connection where
  id : Nat
  closed : Bool
  deriving DecidableEq, Repr

/-- A live `amqp.Channel` handle. -/
abbrev Channel := Nat

/-- An `amqp.Queue` value returned by `QueueDeclare`. -/
structure AmqpQueue where
  name : String
  deriving DecidableEq, Repr

/-- One `amqp.Delivery` received on a consumer feed. -/
structure Delivery where
  body : String
  deriving DecidableEq, Repr

/-- An `amqp.Publishing` record (only the fields the facade sets). -/
structure Publishing where
  ContentType : String
  Body : Bytes
  deriving DecidableEq, Repr

/-- One observable event of a facade run: a call into the AMQP library,
a WaitGroup operation, the launch of the background goroutine, a log
line, or one invocation of the user callback. -/
inductive Event where
  | dial (host : String)
  | openChannel (conn : Connection)
  | queueDeclare (ch : Channel) (name : String) (durable autoDelete exclusive noWait : Bool)
  | publish (ch : Channel) (exchange key : String) (mandatory immediate : Bool) (pub : Publishing)
  | consume (ch : Channel) (queueName consumerID : String) (autoAck exclusive noLocal noWait : Bool)
  | wgAdd (n : Int)
  | wgDone
  | goStart
  | logLine (s : String)
  | callback (d : Delivery)
  deriving DecidableEq, Repr

/-- The external AMQP client library, as a deterministic double: each
operation's outcome is chosen by the environment. -/
structure Broker where
  dial : String → Except Err Connection
  channel : Connection → Except Err Channel
  queueDeclare : Channel → String → Bool → Bool → Bool → Bool → Table → Except Err AmqpQueue
  publish : Channel → String → String → Bool → Bool → Publishing → Option Err
  consume : Channel → String → String → Bool → Bool → Bool → Bool → Table → Except Err (List Delivery)

/-- A broker double is well formed when a successful `Dial` hands back an
open connection, as the real library guarantees. -/
def Broker.Wellformed (env : Broker) : Prop :=
  ∀ host conn, env.dial host = .ok conn → conn.closed = false

/-- Outcome of running a piece of Go code that may dereference a nil
pointer: either a normal value or a runtime panic. -/
inductive GoResult (α : Type) where
  | ok (val : α)
  | nilDeref
  deriving Repr

/-- The `Configuration` record (both variants declare the same fields). -/
structure Configuration where
  Host : String
  RoutingKey : String
  ContentType : String
  Exchange : String
  AutoAcknowledgeMessages : Bool
  Durable : Bool
  DeleteIfUnused : Bool
  Exclusive : Bool
  NoWait : Bool
  NoLocal : Bool
  arguments : Table
  deriving DecidableEq, Repr

/-- The body of the goroutine `for msg := range msgs { f(&Message{&msg}) }`:
draining a closed finite feed invokes the callback once per delivery. -/
def consumeLoop : List Delivery → List Event
  | [] => []
  | m :: rest => Event.callback m :: consumeLoop rest

namespace Unnamed0
/-! The variant in `src/unnamed/part_000`: `Queue` has a `worker` field,
`connect` has no already-connected guard, `openChannel` also rejects a
closed connection, and `Recover` exists. -/

/-- The `Queue` struct of `part_000`.  `wg` is the embedded WaitGroup's
counter; `worker` records whether the callback field is non-nil. -/
structure Queue where
  wg : Int
  Connected : Bool
  connection : Option Connection
  channel : Option Channel
  internalQueue : Option AmqpQueue
  Config : Option Configuration
  worker : Bool
  deriving Repr

/-- `func (q *Queue) connect(host string) error` of `part_000`:
dials and on success stores the connection and sets `Connected`. -/
def connect (env : Broker) (q : Queue) (host : String) :
    Option Err × Queue × List Event :=
  match env.dial host with
  | .error err => (some err, q, [Event.dial host])
  | .ok conn =>
      (none, { q with connection := some conn, Connected := true }, [Event.dial host])

/-- `func (q *Queue) openChannel() error` of `part_000`: errors locally
when the connection is nil or closed, else opens a channel. -/
def openChannel (env : Broker) (q : Queue) :
    Option Err × Queue × List Event :=
  match q.connection with
  | none => (some "No connection to queue", q, [])
  | some conn =>
      if conn.closed then (some "No connection to queue", q, [])
      else
        match env.channel conn with
        | .error err => (some err, q, [Event.openChannel conn])
        | .ok ch => (none, { q with channel := some ch }, [Event.openChannel conn])

/-- `func GetQueue(config *Configuration) (*Queue, error)` of `part_000`:
connect, open a channel, declare the queue; first error wins and is
returned with a nil `*Queue`. -/
def GetQueue (env : Broker) (config : Configuration) :
    GoResult (Except Err Queue × List Event) :=
  let q0 : Queue := ⟨0, false, none, none, none, none, false⟩
  match connect env q0 config.Host with
  | (some err, _, tr) => .ok (.error err, tr)
  | (none, q1, tr1) =>
    match openChannel env q1 with
    | (some err, _, tr2) => .ok (.error err, tr1 ++ tr2)
    | (none, q2, tr2) =>
      match q2.channel with
      | none => .nilDeref
      | some ch =>
        match env.queueDeclare ch config.RoutingKey config.Durable config.DeleteIfUnused
            config.Exclusive config.NoWait config.arguments with
        | .error err =>
            .ok (.error err, tr1 ++ tr2 ++
              [Event.queueDeclare ch config.RoutingKey config.Durable config.DeleteIfUnused
                config.Exclusive config.NoWait])
        | .ok iq =>
            .ok (.ok { q2 with internalQueue := some iq, Config := some config },
              tr1 ++ tr2 ++
              [Event.queueDeclare ch config.RoutingKey config.Durable config.DeleteIfUnused
                config.Exclusive config.NoWait])

/-- `func (q *Queue) Publish(message []byte, mandatory, immediate bool) error`
of `part_000`: local error on nil channel, otherwise forwards the
configured exchange, routing key and content type to the library. -/
def Publish (env : Broker) (q : Queue) (message : Bytes)
    (mandatory immediate : Bool) : GoResult (Option Err × List Event) :=
  match q.channel with
  | none => .ok (some "Queue has not been initialized", [])
  | some ch =>
    match q.Config with
    | none => .nilDeref
    | some cfg =>
        .ok (env.publish ch cfg.Exchange cfg.RoutingKey mandatory immediate
              ⟨cfg.ContentType, message⟩,
             [Event.publish ch cfg.Exchange cfg.RoutingKey mandatory immediate
              ⟨cfg.ContentType, message⟩])

/-- `func (q *Queue) GetConsumer(ConsumerID string)` of `part_000`:
calls `q.channel.Consume` with the configured flags; dereferences
`q.Config` and `q.channel` without any nil guard. -/
def GetConsumer (env : Broker) (q : Queue) (ConsumerID : String) :
    GoResult (Except Err (List Delivery) × List Event) :=
  match q.channel, q.Config with
  | some ch, some cfg =>
      .ok (env.consume ch cfg.RoutingKey ConsumerID cfg.AutoAcknowledgeMessages
             cfg.Exclusive cfg.NoLocal cfg.NoWait cfg.arguments,
           [Event.consume ch cfg.RoutingKey ConsumerID cfg.AutoAcknowledgeMessages
             cfg.Exclusive cfg.NoLocal cfg.NoWait])
  | _, _ => .nilDeref

/-- `func (q *Queue) ProcessIncomingMessages(ConsumerID string, f func(m *Message)) error`
of `part_000`: obtains a consumer feed, stores the callback in `worker`,
does `Add(1)` and launches the goroutine.  The last component is the
background task's event trace over the (finite, then closed) feed. -/
def ProcessIncomingMessages (env : Broker) (q : Queue) (ConsumerID : String) :
    GoResult (Option Err × Queue × List Event × List Event) :=
  match GetConsumer env q ConsumerID with
  | .nilDeref => .nilDeref
  | .ok (.error err, tr) => .ok (some err, q, tr, [])
  | .ok (.ok msgs, tr) =>
      .ok (none, { q with worker := true, wg := q.wg + 1 },
           tr ++ [Event.wgAdd 1, Event.goStart], consumeLoop msgs)

/-- The tail of `Recover` after the conditional reconnect: reopen the
channel, redeclare the queue, and `Done()` one WaitGroup unit when a
worker callback is registered. -/
def recoverTail (env : Broker) (q : Queue) (tr0 : List Event) :
    GoResult (Option Err × Queue × List Event) :=
  match openChannel env q with
  | (some err, q1, tr1) =>
      .ok (some err, q1, tr0 ++ tr1 ++ [Event.logLine "Error reopening channel"])
  | (none, q1, tr1) =>
    match q1.channel, q1.Config with
    | some ch, some cfg =>
      match env.queueDeclare ch cfg.RoutingKey cfg.Durable cfg.DeleteIfUnused
          cfg.Exclusive cfg.NoWait cfg.arguments with
      | .error err =>
          .ok (some err, q1, tr0 ++ tr1 ++
            [Event.queueDeclare ch cfg.RoutingKey cfg.Durable cfg.DeleteIfUnused
              cfg.Exclusive cfg.NoWait,
             Event.logLine "Error declaring queue"])
      | .ok iq =>
          if q1.worker then
            .ok (none, { q1 with internalQueue := some iq, wg := q1.wg - 1 },
              tr0 ++ tr1 ++
              [Event.queueDeclare ch cfg.RoutingKey cfg.Durable cfg.DeleteIfUnused
                cfg.Exclusive cfg.NoWait,
               Event.wgDone])
          else
            .ok (none, { q1 with internalQueue := some iq }, tr0 ++ tr1 ++
              [Event.queueDeclare ch cfg.RoutingKey cfg.Durable cfg.DeleteIfUnused
                cfg.Exclusive cfg.NoWait])
    | _, _ => .nilDeref

/-- `func (q *Queue) Recover() error` of `part_000`, literally as written:
`if !q.connection.IsClosed() { log.Println("Connection was closed");
err = q.connect(q.Config.Host) }`, i.e. it redials precisely when the
connection is NOT closed, then reopens a channel and redeclares. -/
def Recover (env : Broker) (q : Queue) :
    GoResult (Option Err × Queue × List Event) :=
  match q.connection with
  | none => .nilDeref
  | some conn =>
    if !conn.closed then
      match q.Config with
      | none => .nilDeref
      | some cfg =>
        match connect env q cfg.Host with
        | (some err, q1, tr) =>
            .ok (some err, q1,
              Event.logLine "Connection was closed" :: tr ++
                [Event.logLine "Error establishing connection"])
        | (none, q1, tr) =>
            recoverTail env q1 (Event.logLine "Connection was closed" :: tr)
    else
      recoverTail env q []

end Unnamed0

namespace AmqpGo
/-! The variant in `src/amqp.go`: no `worker` field and no `Recover`;
`connect` refuses to run twice; `openChannel` only checks for a nil
connection. -/

/-- The `Queue` struct of `amqp.go` (no `worker` field). -/
structure Queue where
  wg : Int
  Connected : Bool
  connection : Option Connection
  channel : Option Channel
  internalQueue : Option AmqpQueue
  Config : Option Configuration
  deriving Repr

/-- `func (q *Queue) connect(host string) error` of `amqp.go`: returns a
local error when `q.Connected != false`, otherwise dials and on success
stores the connection and sets `Connected`. -/
def connect (env : Broker) (q : Queue) (host : String) :
    Option Err × Queue × List Event :=
  if q.Connected ≠ false then
    (some "Error: Queue is already connected", q, [])
  else
    match env.dial host with
    | .error err => (some err, q, [Event.dial host])
    | .ok conn =>
        (none, { q with connection := some conn, Connected := true }, [Event.dial host])

/-- `func (q *Queue) openChannel() error` of `amqp.go`: errors locally
only when the connection is nil, else opens a channel. -/
def openChannel (env : Broker) (q : Queue) :
    Option Err × Queue × List Event :=
  match q.connection with
  | none => (some "No connection to queue", q, [])
  | some conn =>
      match env.channel conn with
      | .error err => (some err, q, [Event.openChannel conn])
      | .ok ch => (none, { q with channel := some ch }, [Event.openChannel conn])

/-- `func GetQueue(config *Configuration) (*Queue, error)` of `amqp.go`:
connect, open a channel, declare the queue; first error wins and is
returned with a nil `*Queue`. -/
def GetQueue (env : Broker) (config : Configuration) :
    GoResult (Except Err Queue × List Event) :=
  let q0 : Queue := ⟨0, false, none, none, none, none⟩
  match connect env q0 config.Host with
  | (some err, _, tr) => .ok (.error err, tr)
  | (none, q1, tr1) =>
    match openChannel env q1 with
    | (some err, _, tr2) => .ok (.error err, tr1 ++ tr2)
    | (none, q2, tr2) =>
      match q2.channel with
      | none => .nilDeref
      | some ch =>
        match env.queueDeclare ch config.RoutingKey config.Durable config.DeleteIfUnused
            config.Exclusive config.NoWait config.arguments with
        | .error err =>
            .ok (.error err, tr1 ++ tr2 ++
              [Event.queueDeclare ch config.RoutingKey config.Durable config.DeleteIfUnused
                config.Exclusive config.NoWait])
        | .ok iq =>
            .ok (.ok { q2 with internalQueue := some iq, Config := some config },
              tr1 ++ tr2 ++
              [Event.queueDeclare ch config.RoutingKey config.Durable config.DeleteIfUnused
                config.Exclusive config.NoWait])

/-- `func (q *Queue) Publish(message []byte, mandatory, immediate bool) error`
of `amqp.go`: local error on nil channel, otherwise forwards the
configured exchange, routing key and content type to the library. -/
def Publish (env : Broker) (q : Queue) (message : Bytes)
    (mandatory immediate : Bool) : GoResult (Option Err × List Event) :=
  match q.channel with
  | none => .ok (some "Queue has not been initialized", [])
  | some ch =>
    match q.Config with
    | none => .nilDeref
    | some cfg =>
        .ok (env.publish ch cfg.Exchange cfg.RoutingKey mandatory immediate
              ⟨cfg.ContentType, message⟩,
             [Event.publish ch cfg.Exchange cfg.RoutingKey mandatory immediate
              ⟨cfg.ContentType, message⟩])

/-- `func (q *Queue) GetConsumer(ConsumerID string)` of `amqp.go`:
calls `q.channel.Consume` with the configured flags; dereferences
`q.Config` and `q.channel` without any nil guard. -/
def GetConsumer (env : Broker) (q : Queue) (ConsumerID : String) :
    GoResult (Except Err (List Delivery) × List Event) :=
  match q.channel, q.Config with
  | some ch, some cfg =>
      .ok (env.consume ch cfg.RoutingKey ConsumerID cfg.AutoAcknowledgeMessages
             cfg.Exclusive cfg.NoLocal cfg.NoWait cfg.arguments,
           [Event.consume ch cfg.RoutingKey ConsumerID cfg.AutoAcknowledgeMessages
             cfg.Exclusive cfg.NoLocal cfg.NoWait])
  | _, _ => .nilDeref

/-- `func (q *Queue) ProcessIncomingMessages(ConsumerID string, f func(m *Message)) error`
of `amqp.go`: obtains a consumer feed, does `Add(1)` and launches the
goroutine (this variant does not record the callback anywhere). -/
def ProcessIncomingMessages (env : Broker) (q : Queue) (ConsumerID : String) :
    GoResult (Option Err × Queue × List Event × List Event) :=
  match GetConsumer env q ConsumerID with
  | .nilDeref => .nilDeref
  | .ok (.error err, tr) => .ok (some err, q, tr, [])
  | .ok (.ok msgs, tr) =>
      .ok (none, { q with wg := q.wg + 1 },
           tr ++ [Event.wgAdd 1, Event.goStart], consumeLoop msgs)

end AmqpGo

/-- A fixed well-behaved broker double used for concrete runs: every
operation succeeds, the dialed connection is open, and consuming yields
two deliveries. -/
def envOk : Broker where
  dial := fun _ => .ok ⟨7, false⟩
  channel := fun _ => .ok 3
  queueDeclare := fun _ name _ _ _ _ _ => .ok ⟨name⟩
  publish := fun _ _ _ _ _ _ => none
  consume := fun _ _ _ _ _ _ _ _ => .ok [⟨"m1"⟩, ⟨"m2"⟩]

/-- A broker double whose every operation fails with a distinct error. -/
def envFail : Broker where
  dial := fun _ => .error "dial failed"
  channel := fun _ => .error "channel failed"
  queueDeclare := fun _ _ _ _ _ _ _ => .error "declare failed"
  publish := fun _ _ _ _ _ _ => some "publish failed"
  consume := fun _ _ _ _ _ _ _ _ => .error "consume failed"

/-- A fixed configuration record used for concrete runs. -/
def cfg0 : Configuration :=
  ⟨"amqp://host", "rk", "text/plain", "ex", true, false, false, false, false, false, []⟩

/-- A constructed `part_000` queue whose connection has become closed. -/
def qRecClosed : Unnamed0.Queue :=
  ⟨0, true, some ⟨1, true⟩, some 2, some ⟨"rk"⟩, some cfg0, false⟩

/-- A constructed `part_000` queue whose connection is still open. -/
def qRecOpen : Unnamed0.Queue :=
  ⟨0, true, some ⟨1, false⟩, some 2, some ⟨"rk"⟩, some cfg0, false⟩

/-- Draining the feed invokes the callback once per delivery, in order. -/
theorem consumeLoop_eq_map (msgs : List Delivery) :
    consumeLoop msgs = msgs.map Event.callback := by
  induction msgs with
  | nil => rfl
  | cons m rest ih => simp [consumeLoop, ih]

/-- Claim C1 (code bug): `Recover` on a constructed queue with a CLOSED
connection performs no re-dial at all (the run reaches `openChannel` and
fails with the local "No connection to queue" error, its trace containing
no `dial` event), while on an OPEN connection it does re-dial — the
literal source inverts the intended closed-connection check. -/
theorem recover_inverted_closed_check_eval :
    (Unnamed0.Recover envOk qRecClosed =
      .ok (some "No connection to queue", qRecClosed,
        [Event.logLine "Error reopening channel"])) ∧
    (∀ host, Event.dial host ∉ [Event.logLine "Error reopening channel"]) ∧
    (Unnamed0.Recover envOk qRecOpen =
      .ok (none, ⟨0, true, some ⟨7, false⟩, some 3, some ⟨"rk"⟩, some cfg0, false⟩,
        [Event.logLine "Connection was closed", Event.dial "amqp://host",
         Event.openChannel ⟨7, false⟩,
         Event.queueDeclare 3 "rk" false false false false])) ∧
    Event.dial "amqp://host" ∈
      [Event.logLine "Connection was closed", Event.dial "amqp://host",
       Event.openChannel ⟨7, false⟩,
       Event.queueDeclare 3 "rk" false false false false] := by
  refine ⟨rfl, ?_, rfl, by simp⟩
  intro host
  simp

/-- Claim C2: on a queue whose channel handle is nil (in both variants),
`Publish` returns the local "Queue has not been initialized" error with
an empty library-call trace, for every body and every flag value. -/
theorem publish_uninitialized_local_error (env : Broker)
    (q0 : Unnamed0.Queue) (q1 : AmqpGo.Queue) (message : Bytes)
    (mandatory immediate : Bool)
    (h0 : q0.channel = none) (h1 : q1.channel = none) :
    Unnamed0.Publish env q0 message mandatory immediate =
      .ok (some "Queue has not been initialized", []) ∧
    AmqpGo.Publish env q1 message mandatory immediate =
      .ok (some "Queue has not been initialized", []) := by
  constructor
  · simp [Unnamed0.Publish, h0]
  · simp [AmqpGo.Publish, h1]

/-- Witness for C2 at a freshly allocated queue of each variant. -/
theorem publish_uninitialized_local_error_witness :
    Unnamed0.Publish envOk ⟨0, false, none, none, none, none, false⟩ [1, 2] true false =
      .ok (some "Queue has not been initialized", []) ∧
    AmqpGo.Publish envOk ⟨0, false, none, none, none, none⟩ [1, 2] true false =
      .ok (some "Queue has not been initialized", []) :=
  publish_uninitialized_local_error envOk _ _ [1, 2] true false rfl rfl

/-- Claim C7: with an open channel and a configuration present, `Publish`
(in both variants) makes exactly one library publish call carrying the
configured exchange, routing key and content type together with the
caller's body and flags, and returns that call's result. -/
theorem publish_forwards_configured_fields (env : Broker)
    (q0 : Unnamed0.Queue) (q1 : AmqpGo.Queue) (ch0 ch1 : Channel)
    (c0 c1 : Configuration) (message : Bytes) (mandatory immediate : Bool)
    (h0c : q0.channel = some ch0) (h0f : q0.Config = some c0)
    (h1c : q1.channel = some ch1) (h1f : q1.Config = some c1) :
    Unnamed0.Publish env q0 message mandatory immediate =
      .ok (env.publish ch0 c0.Exchange c0.RoutingKey mandatory immediate
            ⟨c0.ContentType, message⟩,
          [Event.publish ch0 c0.Exchange c0.RoutingKey mandatory immediate
            ⟨c0.ContentType, message⟩]) ∧
    AmqpGo.Publish env q1 message mandatory immediate =
      .ok (env.publish ch1 c1.Exchange c1.RoutingKey mandatory immediate
            ⟨c1.ContentType, message⟩,
          [Event.publish ch1 c1.Exchange c1.RoutingKey mandatory immediate
            ⟨c1.ContentType, message⟩]) := by
  constructor
  · simp [Unnamed0.Publish, h0c, h0f]
  · simp [AmqpGo.Publish, h1c, h1f]

/-- Witness for C7 on connected queues of both variants under `envOk`. -/
theorem publish_forwards_configured_fields_witness :
    Unnamed0.Publish envOk qRecOpen [9] false true =
      .ok (envOk.publish 2 cfg0.Exchange cfg0.RoutingKey false true
            ⟨cfg0.ContentType, [9]⟩,
          [Event.publish 2 cfg0.Exchange cfg0.RoutingKey false true
            ⟨cfg0.ContentType, [9]⟩]) ∧
    AmqpGo.Publish envOk ⟨0, true, some ⟨1, false⟩, some 2, some ⟨"rk"⟩, some cfg0⟩ [9] false true =
      .ok (envOk.publish 2 cfg0.Exchange cfg0.RoutingKey false true
            ⟨cfg0.ContentType, [9]⟩,
          [Event.publish 2 cfg0.Exchange cfg0.RoutingKey false true
            ⟨cfg0.ContentType, [9]⟩]) :=
  publish_forwards_configured_fields envOk qRecOpen _ 2 2 cfg0 cfg0 [9] false true
    rfl rfl rfl rfl

/-- Claim C9: `GetConsumer` has no nil-channel guard: with a nil channel
handle the call dereferences nil (a runtime panic) in both variants, so
no error value — in particular not the "not initialized" one — is ever
returned from that state. -/
theorem getConsumer_nil_channel_panics (env : Broker)
    (q0 : Unnamed0.Queue) (q1 : AmqpGo.Queue) (cid : String)
    (h0 : q0.channel = none) (h1 : q1.channel = none) :
    Unnamed0.GetConsumer env q0 cid = .nilDeref ∧
    AmqpGo.GetConsumer env q1 cid = .nilDeref := by
  constructor
  · simp [Unnamed0.GetConsumer, h0]
  · simp [AmqpGo.GetConsumer, h1]

/-- Witness for C9 at a freshly allocated queue of each variant. -/
theorem getConsumer_nil_channel_panics_witness :
    Unnamed0.GetConsumer envOk ⟨0, false, none, none, none, none, false⟩ "cid" = .nilDeref ∧
    AmqpGo.GetConsumer envOk ⟨0, false, none, none, none, none⟩ "cid" = .nilDeref :=
  getConsumer_nil_channel_panics envOk _ _ "cid" rfl rfl

/-- Claim C5: when the consumer feed is obtained successfully,
`ProcessIncomingMessages` starts a task whose event trace invokes the
callback exactly once per delivery of the feed, in feed order (the task
trace is exactly the image of the delivery list under `callback`). -/
theorem processIncomingMessages_callback_order (env : Broker)
    (q : Unnamed0.Queue) (cid : String) (msgs : List Delivery) (tr : List Event)
    (h : Unnamed0.GetConsumer env q cid = .ok (.ok msgs, tr)) :
    Unnamed0.ProcessIncomingMessages env q cid =
      .ok (none, { q with worker := true, wg := q.wg + 1 },
           tr ++ [Event.wgAdd 1, Event.goStart], consumeLoop msgs) ∧
    consumeLoop msgs = msgs.map Event.callback := by
  refine ⟨?_, consumeLoop_eq_map msgs⟩
  simp [Unnamed0.ProcessIncomingMessages, h]

/-- Witness for C5 on a connected queue receiving two deliveries. -/
theorem processIncomingMessages_callback_order_witness :
    Unnamed0.ProcessIncomingMessages envOk qRecOpen "cid" =
      .ok (none, { qRecOpen with worker := true, wg := qRecOpen.wg + 1 },
           [Event.consume 2 "rk" "cid" true false false false] ++
             [Event.wgAdd 1, Event.goStart],
           consumeLoop [⟨"m1"⟩, ⟨"m2"⟩]) ∧
    consumeLoop [⟨"m1"⟩, ⟨"m2"⟩] = List.map Event.callback [⟨"m1"⟩, ⟨"m2"⟩] :=
  processIncomingMessages_callback_order envOk qRecOpen "cid" [⟨"m1"⟩, ⟨"m2"⟩]
    [Event.consume 2 "rk" "cid" true false false false] rfl

/-- Frame lemma: `part_000`'s `connect` never touches the WaitGroup, the
worker field or the configuration, and emits no `Done`. -/
theorem connect_frame (env : Broker) (q : Unnamed0.Queue) (host : String)
    (e : Option Err) (q' : Unnamed0.Queue) (tr : List Event)
    (h : Unnamed0.connect env q host = (e, q', tr)) :
    q'.wg = q.wg ∧ q'.worker = q.worker ∧ q'.Config = q.Config ∧
      Event.wgDone ∉ tr := by
  unfold Unnamed0.connect at h
  split at h <;>
    (simp only [Prod.mk.injEq] at h
     obtain ⟨he, hq, ht⟩ := h
     subst hq
     subst ht
     simp)

/-- Frame lemma: `part_000`'s `openChannel` never touches the WaitGroup,
the worker field or the configuration, and emits no `Done`. -/
theorem openChannel_frame (env : Broker) (q : Unnamed0.Queue)
    (e : Option Err) (q' : Unnamed0.Queue) (tr : List Event)
    (h : Unnamed0.openChannel env q = (e, q', tr)) :
    q'.wg = q.wg ∧ q'.worker = q.worker ∧ q'.Config = q.Config ∧
      Event.wgDone ∉ tr := by
  unfold Unnamed0.openChannel at h
  repeat' split at h
  all_goals
    (simp only [Prod.mk.injEq] at h
     obtain ⟨he, hq, ht⟩ := h
     subst hq
     subst ht
     simp)

/-- WaitGroup behaviour of `Recover`'s tail (channel reopen, redeclare,
conditional `Done`): one unit is released exactly on the success path
with a registered worker; every other outcome leaves the counter alone
and emits no `Done`. -/
theorem recoverTail_wg_spec (env : Broker) (q : Unnamed0.Queue)
    (tr0 : List Event) (err : Option Err) (q' : Unnamed0.Queue)
    (tr : List Event) (htr0 : Event.wgDone ∉ tr0)
    (h : Unnamed0.recoverTail env q tr0 = .ok (err, q', tr)) :
    ((err = none ∧ q.worker = true) → q'.wg = q.wg - 1 ∧ Event.wgDone ∈ tr) ∧
    (¬(err = none ∧ q.worker = true) → q'.wg = q.wg ∧ Event.wgDone ∉ tr) := by
  rcases hoc : Unnamed0.openChannel env q with ⟨e1, q1, tr1⟩
  obtain ⟨hwg1, hwk1, hcf1, hnd1⟩ := openChannel_frame env q e1 q1 tr1 hoc
  unfold Unnamed0.recoverTail at h
  rw [hoc] at h
  repeat' split at h
  all_goals try exact GoResult.noConfusion h
  all_goals simp only [GoResult.ok.injEq, Prod.mk.injEq] at h
  all_goals refine ⟨fun hp => ?_, fun hn => ?_⟩
  all_goals
    (obtain ⟨he, hq, ht⟩ := h
     subst ht
     subst hq
     try subst he
     simp_all [List.mem_append])

/-- WaitGroup behaviour of `Recover` as a whole: the counter drops by one
(and a `Done` event occurs) exactly when `Recover` succeeds on a queue
with a registered worker; otherwise the counter is unchanged and no
`Done` occurs. -/
theorem recover_wg_spec (env : Broker) (q : Unnamed0.Queue)
    (err : Option Err) (q' : Unnamed0.Queue) (tr : List Event)
    (h : Unnamed0.Recover env q = .ok (err, q', tr)) :
    ((err = none ∧ q.worker = true) → q'.wg = q.wg - 1 ∧ Event.wgDone ∈ tr) ∧
    (¬(err = none ∧ q.worker = true) → q'.wg = q.wg ∧ Event.wgDone ∉ tr) := by
  unfold Unnamed0.Recover at h
  split at h
  · exact GoResult.noConfusion h
  · split at h
    · -- the literal source's branch: the connection is NOT closed, redial
      split at h
      · exact GoResult.noConfusion h
      · rename_i xc cfg hcfg
        split at h
        · -- dial failed: queue and counter untouched
          rename_i xt err1 q1 tr1 hc
          obtain ⟨hwg1, hwk1, hcf1, hnd1⟩ :=
            connect_frame env q cfg.Host (some err1) q1 tr1 hc
          simp only [GoResult.ok.injEq, Prod.mk.injEq] at h
          refine ⟨fun hp => ?_, fun hn => ?_⟩ <;>
            (obtain ⟨he, hq, ht⟩ := h
             subst ht
             subst hq
             try subst he
             simp_all [List.mem_append])
        · -- dial succeeded: hand over to the tail
          rename_i xt q1 tr1 hc
          obtain ⟨hwg1, hwk1, hcf1, hnd1⟩ :=
            connect_frame env q cfg.Host none q1 tr1 hc
          have hspec := recoverTail_wg_spec env q1
            (Event.logLine "Connection was closed" :: tr1) err q' tr
            (by simp [hnd1]) h
          rw [hwk1, hwg1] at hspec
          exact hspec
    · -- connection closed: straight to the tail, no dial
      exact recoverTail_wg_spec env q [] err q' tr (by simp) h

/-- Claim C6: a successful `ProcessIncomingMessages` call adds one
WaitGroup unit (the `wgAdd` event precedes the goroutine launch in its
trace) and the background task itself never emits `Done` — the unit is
released exactly by a successful `Recover` on a queue with a registered
worker, never on normal feed closure. -/
theorem wg_add_before_task_and_done_only_in_recover (env : Broker)
    (q : Unnamed0.Queue) (cid : String) (msgs : List Delivery)
    (tr : List Event)
    (h : Unnamed0.GetConsumer env q cid = .ok (.ok msgs, tr)) :
    Unnamed0.ProcessIncomingMessages env q cid =
      .ok (none, { q with worker := true, wg := q.wg + 1 },
           tr ++ [Event.wgAdd 1, Event.goStart], consumeLoop msgs) ∧
    Event.wgDone ∉ consumeLoop msgs ∧
    (∀ q2 err q2' tr2, Unnamed0.Recover env q2 = .ok (err, q2', tr2) →
      (Event.wgDone ∈ tr2 ↔ (err = none ∧ q2.worker = true))) := by
  refine ⟨by simp [Unnamed0.ProcessIncomingMessages, h], ?_, ?_⟩
  · rw [consumeLoop_eq_map]
    simp
  · intro q2 err q2' tr2 h2
    obtain ⟨hpos, hneg⟩ := recover_wg_spec env q2 err q2' tr2 h2
    constructor
    · intro hin
      by_contra hnp
      exact (hneg hnp).2 hin
    · intro hp
      exact (hpos hp).2

/-- Witness for C6: a connected queue consuming two deliveries, plus a
`Recover` run on the same queue after a worker was registered. -/
theorem wg_add_before_task_and_done_only_in_recover_witness :
    Unnamed0.ProcessIncomingMessages envOk qRecOpen "cid" =
      .ok (none, { qRecOpen with worker := true, wg := qRecOpen.wg + 1 },
           [Event.consume 2 "rk" "cid" true false false false] ++
             [Event.wgAdd 1, Event.goStart], consumeLoop [⟨"m1"⟩, ⟨"m2"⟩]) ∧
    Event.wgDone ∉ consumeLoop [⟨"m1"⟩, ⟨"m2"⟩] ∧
    (∀ q2 err q2' tr2, Unnamed0.Recover envOk q2 = .ok (err, q2', tr2) →
      (Event.wgDone ∈ tr2 ↔ (err = none ∧ q2.worker = true))) :=
  wg_add_before_task_and_done_only_in_recover envOk qRecOpen "cid"
    [⟨"m1"⟩, ⟨"m2"⟩] [Event.consume 2 "rk" "cid" true false false false] rfl

/-- Claim C10: on a queue with no registered worker (never passed to
`ProcessIncomingMessages`), a successful `Recover` leaves the WaitGroup
counter unchanged and performs no `Done`. -/
theorem recover_without_worker_preserves_wg (env : Broker)
    (q q' : Unnamed0.Queue) (tr : List Event) (hw : q.worker = false)
    (h : Unnamed0.Recover env q = .ok (none, q', tr)) :
    q'.wg = q.wg ∧ Event.wgDone ∉ tr := by
  obtain ⟨-, hneg⟩ := recover_wg_spec env q none q' tr h
  exact hneg (by simp [hw])

/-- Witness for C10: a successful `Recover` run on a worker-less queue
under `envOk` keeps the counter at its old value. -/
theorem recover_without_worker_preserves_wg_witness :
    (⟨0, true, some ⟨7, false⟩, some 3, some ⟨"rk"⟩, some cfg0, false⟩ :
        Unnamed0.Queue).wg = qRecOpen.wg ∧
    Event.wgDone ∉
      [Event.logLine "Connection was closed", Event.dial "amqp://host",
       Event.openChannel ⟨7, false⟩,
       Event.queueDeclare 3 "rk" false false false false] :=
  recover_without_worker_preserves_wg envOk qRecOpen _ _ rfl rfl

/-- Claim C4: whenever `GetQueue` (in either variant) returns a queue
without error, that queue's `Connected` field is true. -/
theorem getQueue_success_connected (env : Broker) (config : Configuration) :
    (∀ q tr, Unnamed0.GetQueue env config = .ok (.ok q, tr) →
      q.Connected = true) ∧
    (∀ q tr, AmqpGo.GetQueue env config = .ok (.ok q, tr) →
      q.Connected = true) := by
  constructor
  · intro q tr h
    cases hd : env.dial config.Host with
    | error e => simp [Unnamed0.GetQueue, Unnamed0.connect, hd] at h
    | ok c =>
      cases hcl : c.closed with
      | true =>
          simp [Unnamed0.GetQueue, Unnamed0.connect, Unnamed0.openChannel,
            hd, hcl] at h
      | false =>
        cases hch : env.channel c with
        | error e =>
            simp [Unnamed0.GetQueue, Unnamed0.connect, Unnamed0.openChannel,
              hd, hcl, hch] at h
        | ok ch =>
          cases hqd : env.queueDeclare ch config.RoutingKey config.Durable
              config.DeleteIfUnused config.Exclusive config.NoWait config.arguments with
          | error e =>
              simp [Unnamed0.GetQueue, Unnamed0.connect, Unnamed0.openChannel,
                hd, hcl, hch, hqd] at h
          | ok iq =>
              simp [Unnamed0.GetQueue, Unnamed0.connect, Unnamed0.openChannel,
                hd, hcl, hch, hqd] at h
              obtain ⟨hq, -⟩ := h
              subst hq
              rfl
  · intro q tr h
    cases hd : env.dial config.Host with
    | error e => simp [AmqpGo.GetQueue, AmqpGo.connect, hd] at h
    | ok c =>
      cases hch : env.channel c with
      | error e =>
          simp [AmqpGo.GetQueue, AmqpGo.connect, AmqpGo.openChannel,
            hd, hch] at h
      | ok ch =>
        cases hqd : env.queueDeclare ch config.RoutingKey config.Durable
            config.DeleteIfUnused config.Exclusive config.NoWait config.arguments with
        | error e =>
            simp [AmqpGo.GetQueue, AmqpGo.connect, AmqpGo.openChannel,
              hd, hch, hqd] at h
        | ok iq =>
            simp [AmqpGo.GetQueue, AmqpGo.connect, AmqpGo.openChannel,
              hd, hch, hqd] at h
            obtain ⟨hq, -⟩ := h
            subst hq
            rfl

/-- Witness for C4: a successful construction under `envOk` in each
variant yields a queue with `Connected = true`. -/
theorem getQueue_success_connected_witness :
    ((⟨0, true, some ⟨7, false⟩, some 3, some ⟨"rk"⟩, some cfg0, false⟩ :
        Unnamed0.Queue).Connected = true) ∧
    ((⟨0, true, some ⟨7, false⟩, some 3, some ⟨"rk"⟩, some cfg0⟩ :
        AmqpGo.Queue).Connected = true) :=
  ⟨(getQueue_success_connected envOk cfg0).1 _
      [Event.dial "amqp://host", Event.openChannel ⟨7, false⟩,
       Event.queueDeclare 3 "rk" false false false false] rfl,
   (getQueue_success_connected envOk cfg0).2 _
      [Event.dial "amqp://host", Event.openChannel ⟨7, false⟩,
       Event.queueDeclare 3 "rk" false false false false] rfl⟩

/-- Claim C3: if construction fails at the dial, channel-open or
queue-declare step (in either variant), `GetQueue` returns no queue and
exactly the library's error, unchanged. -/
theorem getQueue_propagates_library_errors (env : Broker) (config : Configuration) :
    (∀ e, env.dial config.Host = .error e →
      Unnamed0.GetQueue env config = .ok (.error e, [Event.dial config.Host])) ∧
    (∀ c e, env.dial config.Host = .ok c → c.closed = false →
      env.channel c = .error e →
      Unnamed0.GetQueue env config =
        .ok (.error e, [Event.dial config.Host, Event.openChannel c])) ∧
    (∀ c ch e, env.dial config.Host = .ok c → c.closed = false →
      env.channel c = .ok ch →
      env.queueDeclare ch config.RoutingKey config.Durable config.DeleteIfUnused
        config.Exclusive config.NoWait config.arguments = .error e →
      Unnamed0.GetQueue env config =
        .ok (.error e, [Event.dial config.Host, Event.openChannel c,
          Event.queueDeclare ch config.RoutingKey config.Durable config.DeleteIfUnused
            config.Exclusive config.NoWait])) ∧
    (∀ e, env.dial config.Host = .error e →
      AmqpGo.GetQueue env config = .ok (.error e, [Event.dial config.Host])) ∧
    (∀ c e, env.dial config.Host = .ok c → env.channel c = .error e →
      AmqpGo.GetQueue env config =
        .ok (.error e, [Event.dial config.Host, Event.openChannel c])) ∧
    (∀ c ch e, env.dial config.Host = .ok c → env.channel c = .ok ch →
      env.queueDeclare ch config.RoutingKey config.Durable config.DeleteIfUnused
        config.Exclusive config.NoWait config.arguments = .error e →
      AmqpGo.GetQueue env config =
        .ok (.error e, [Event.dial config.Host, Event.openChannel c,
          Event.queueDeclare ch config.RoutingKey config.Durable config.DeleteIfUnused
            config.Exclusive config.NoWait])) := by
  refine ⟨fun e hd => ?_, fun c e hd hcl hch => ?_, fun c ch e hd hcl hch hqd => ?_,
    fun e hd => ?_, fun c e hd hch => ?_, fun c ch e hd hch hqd => ?_⟩
  · simp [Unnamed0.GetQueue, Unnamed0.connect, hd]
  · simp [Unnamed0.GetQueue, Unnamed0.connect, Unnamed0.openChannel, hd, hcl, hch]
  · simp [Unnamed0.GetQueue, Unnamed0.connect, Unnamed0.openChannel, hd, hcl, hch, hqd]
  · simp [AmqpGo.GetQueue, AmqpGo.connect, hd]
  · simp [AmqpGo.GetQueue, AmqpGo.connect, AmqpGo.openChannel, hd, hch]
  · simp [AmqpGo.GetQueue, AmqpGo.connect, AmqpGo.openChannel, hd, hch, hqd]

/-- Witness for C3: against a broker whose dial fails, construction in
each variant fails with exactly that dial error. -/
theorem getQueue_propagates_library_errors_witness :
    Unnamed0.GetQueue envFail cfg0 =
      .ok (.error "dial failed", [Event.dial "amqp://host"]) ∧
    AmqpGo.GetQueue envFail cfg0 =
      .ok (.error "dial failed", [Event.dial "amqp://host"]) :=
  ⟨(getQueue_propagates_library_errors envFail cfg0).1 "dial failed" rfl,
   (getQueue_propagates_library_errors envFail cfg0).2.2.2.1 "dial failed" rfl⟩

/-- Claim C8: in the `amqp.go` variant, `connect` on an already-connected
queue returns the local "already connected" error with the queue record
(connection handle and flag included) unchanged and no dial attempted;
its only other failure is the library's dial error, passed through
unchanged. -/
theorem connect_twice_local_error (env : Broker) (q : AmqpGo.Queue) (host : String) :
    (q.Connected = true →
      AmqpGo.connect env q host = (some "Error: Queue is already connected", q, [])) ∧
    (∀ e, q.Connected = false → env.dial host = .error e →
      AmqpGo.connect env q host = (some e, q, [Event.dial host])) := by
  constructor
  · intro hc
    simp [AmqpGo.connect, hc]
  · intro e hc hd
    simp [AmqpGo.connect, hc, hd]

/-- Witness for C8: a connected queue is refused a second `connect` with
no dial, and on a fresh queue a failing dial's error passes through. -/
theorem connect_twice_local_error_witness :
    AmqpGo.connect envOk ⟨0, true, some ⟨7, false⟩, some 3, none, none⟩ "amqp://host" =
      (some "Error: Queue is already connected",
       ⟨0, true, some ⟨7, false⟩, some 3, none, none⟩, []) ∧
    AmqpGo.connect envFail ⟨0, false, none, none, none, none⟩ "amqp://host" =
      (some "dial failed", ⟨0, false, none, none, none, none⟩, [Event.dial "amqp://host"]) :=
  ⟨(connect_twice_local_error envOk ⟨0, true, some ⟨7, false⟩, some 3, none, none⟩
      "amqp://host").1 rfl,
   (connect_twice_local_error envFail ⟨0, false, none, none, none, none⟩
      "amqp://host").2 "dial failed" rfl rfl⟩
